import Mathlib

/-!
Shallow embedding of the Codebreaker PS2 cheat-code engine (`src/lib.rs`):
the scheme dispatcher and the auto-decrypt state machine, together with
proofs of the specified properties.

The two concrete cipher backends (`cb1`, the stateless "simple" scheme, and
`Cb7`, the stateful "keyed" scheme) and the activation-marker predicate
`is_beefcode` live in modules outside the core source; the core only calls
them through a fixed interface (spec §6).  The embedding therefore takes
them as parameters (`Env` below), so every theorem about the core holds for
every implementation of the collaborators.
-/

/-- The cipher scheme currently active in the engine (`enum Scheme` in
`src/lib.rs`): `RAW` (no transform), `V1` (the stateless legacy cipher),
`V7` (the stateful keyed cipher). -/
inductive Scheme where
  | RAW
  | V1
  | V7
  deriving DecidableEq

/-- The external collaborators of the core (spec §6), abstracted: the
simple-scheme (cb1) forward and inverse transforms, the keyed-scheme (cb7)
transforms over an abstract cipher-state type `σ`, the cb7 reseed operation
(`beefcode`), the two initial cb7 states used by the constructors
(`Cb7::new` and `Cb7::default`), and the activation-marker predicate
(`cb7::is_beefcode`). -/
structure Env (σ : Type) where
  cb1Encrypt : Nat → Nat → Nat × Nat
  cb1Decrypt : Nat → Nat → Nat × Nat
  cb7Encrypt : σ → Nat → Nat → σ × Nat × Nat
  cb7Decrypt : σ → Nat → Nat → σ × Nat × Nat
  cb7Beefcode : σ → Nat → Nat → σ
  cb7New : σ
  cb7Default : σ
  beefcodep : Nat → Bool

/-- The engine state (`struct Codebreaker` in `src/lib.rs`): the active
scheme, the keyed cipher's state, and the remaining-lines counter
(`code_lines`, a `usize`). -/
structure Codebreaker (σ : Type) where
  scheme : Scheme
  cb7 : σ
  code_lines : Nat

variable {σ : Type}

/-- `Codebreaker::new` (cold start): scheme `RAW`, fresh cb7 state,
`code_lines = 0`. -/
def Codebreaker.new (env : Env σ) : Codebreaker σ :=
  ⟨Scheme.RAW, env.cb7New, 0⟩

/-- `Codebreaker::new_v7` (warm start): scheme `V7`, default cb7 state,
`code_lines = 0`. -/
def Codebreaker.new_v7 (env : Env σ) : Codebreaker σ :=
  ⟨Scheme.V7, env.cb7Default, 0⟩

/-- `num_code_lines` from `src/lib.rs`: the opcode-nibble rule giving the
number of physical lines of the logical code headed by `addr`. -/
def num_code_lines (addr : Nat) : Nat :=
  let cmd := addr >>> 28
  if cmd < 3 ∨ cmd > 6 then 1
  else if cmd = 3 then
    if addr &&& 0x00400000 ≠ 0 then 2 else 1
  else 2

/-- `Codebreaker::encrypt_code_mut` from `src/lib.rs`: transform with the
active scheme (cb7 when `V7`, else cb1), then — testing the pre-transform
address — possibly reseed cb7 with the pre-transform pair and switch the
scheme to `V7`.  Returns the new engine state and the output pair. -/
def Codebreaker.encrypt_code_mut (env : Env σ) (s : Codebreaker σ) (addr val : Nat) :
    Codebreaker σ × Nat × Nat :=
  let t : σ × Nat × Nat :=
    if s.scheme = Scheme.V7 then env.cb7Encrypt s.cb7 addr val
    else (s.cb7, env.cb1Encrypt addr val)
  if env.beefcodep addr then
    (⟨Scheme.V7, env.cb7Beefcode t.1 addr val, s.code_lines⟩, t.2)
  else
    (⟨s.scheme, t.1, s.code_lines⟩, t.2)

/-- `Codebreaker::encrypt_code` from `src/lib.rs`: the by-value wrapper of
`encrypt_code_mut`. -/
def Codebreaker.encrypt_code (env : Env σ) (s : Codebreaker σ) (addr val : Nat) :
    Codebreaker σ × Nat × Nat :=
  s.encrypt_code_mut env addr val

/-- `Codebreaker::decrypt_code_mut` from `src/lib.rs`: inverse transform
with the active scheme, then — testing the post-transform address —
possibly reseed cb7 with the post-transform pair and switch the scheme to
`V7`. -/
def Codebreaker.decrypt_code_mut (env : Env σ) (s : Codebreaker σ) (addr val : Nat) :
    Codebreaker σ × Nat × Nat :=
  let t : σ × Nat × Nat :=
    if s.scheme = Scheme.V7 then env.cb7Decrypt s.cb7 addr val
    else (s.cb7, env.cb1Decrypt addr val)
  if env.beefcodep t.2.1 then
    (⟨Scheme.V7, env.cb7Beefcode t.1 t.2.1 t.2.2, s.code_lines⟩, t.2)
  else
    (⟨s.scheme, t.1, s.code_lines⟩, t.2)

/-- `Codebreaker::decrypt_code` from `src/lib.rs`: the by-value wrapper of
`decrypt_code_mut`. -/
def Codebreaker.decrypt_code (env : Env σ) (s : Codebreaker σ) (addr val : Nat) :
    Codebreaker σ × Nat × Nat :=
  s.decrypt_code_mut env addr val

/-- The body of `Codebreaker::auto_decrypt_code_mut` (src/lib.rs lines
222-257), i.e. everything before the common `is_beefcode` tail.  The final
`Bool` is `true` exactly on the three paths where the Rust code `return`s
early, skipping the tail: the "ignore raw beefcode" path, the RAW
continuation path, and the unsupported `FFFFFFFF` rekey path. -/
def Codebreaker.auto_decrypt_body (env : Env σ) (s : Codebreaker σ) (addr val : Nat) :
    Codebreaker σ × Nat × Nat × Bool :=
  if s.scheme ≠ Scheme.V7 then
    if s.code_lines = 0 then
      if (addr >>> 24) &&& 0x0e ≠ 0 then
        if env.beefcodep addr then
          (⟨s.scheme, s.cb7, num_code_lines addr - 1⟩, addr, val, true)
        else
          let p := env.cb1Decrypt addr val
          (⟨Scheme.V1, s.cb7, num_code_lines addr - 1⟩, p.1, p.2, false)
      else
        (⟨Scheme.RAW, s.cb7, num_code_lines addr - 1⟩, addr, val, false)
    else
      if s.scheme = Scheme.RAW then
        (⟨s.scheme, s.cb7, s.code_lines - 1⟩, addr, val, true)
      else
        let p := env.cb1Decrypt addr val
        (⟨s.scheme, s.cb7, s.code_lines - 1⟩, p.1, p.2, false)
  else
    let t := env.cb7Decrypt s.cb7 addr val
    if s.code_lines = 0 then
      if num_code_lines t.2.1 = 1 ∧ t.2.1 = 0xffffffff then
        (⟨s.scheme, t.1, 0⟩, t.2.1, t.2.2, true)
      else
        (⟨s.scheme, t.1, num_code_lines t.2.1 - 1⟩, t.2.1, t.2.2, false)
    else
      (⟨s.scheme, t.1, s.code_lines - 1⟩, t.2.1, t.2.2, false)

/-- The common tail of `Codebreaker::auto_decrypt_code_mut` (src/lib.rs
lines 259-263): if the produced address is a beefcode, reseed cb7 with the
produced pair, switch the scheme to `V7` and force `code_lines = 1`. -/
def Codebreaker.beefcodeTail (env : Env σ) (s : Codebreaker σ) (addr val : Nat) :
    Codebreaker σ × Nat × Nat :=
  if env.beefcodep addr then
    (⟨Scheme.V7, env.cb7Beefcode s.cb7 addr val, 1⟩, addr, val)
  else
    (s, addr, val)

/-- `Codebreaker::auto_decrypt_code_mut` from `src/lib.rs`: the body
followed, on the paths that did not return early, by the common tail. -/
def Codebreaker.auto_decrypt_code_mut (env : Env σ) (s : Codebreaker σ) (addr val : Nat) :
    Codebreaker σ × Nat × Nat :=
  let r := s.auto_decrypt_body env addr val
  if r.2.2.2 then (r.1, r.2.1, r.2.2.1)
  else Codebreaker.beefcodeTail env r.1 r.2.1 r.2.2.1

/-- `Codebreaker::auto_decrypt_code` from `src/lib.rs`: the by-value
wrapper of `auto_decrypt_code_mut`. -/
def Codebreaker.auto_decrypt_code (env : Env σ) (s : Codebreaker σ) (addr val : Nat) :
    Codebreaker σ × Nat × Nat :=
  s.auto_decrypt_code_mut env addr val

/-- One invocation of the public surface: explicit encrypt, explicit
decrypt, or auto-decrypt, each with its input word-pair. -/
inductive Op where
  | enc (addr val : Nat)
  | dec (addr val : Nat)
  | auto (addr val : Nat)

/-- Apply one public operation to the engine state, keeping the state. -/
def Codebreaker.step (env : Env σ) (s : Codebreaker σ) : Op → Codebreaker σ
  | Op.enc a v => (s.encrypt_code_mut env a v).1
  | Op.dec a v => (s.decrypt_code_mut env a v).1
  | Op.auto a v => (s.auto_decrypt_code_mut env a v).1

/-- Run a whole session: apply a list of public operations in order. -/
def Codebreaker.run (env : Env σ) (s : Codebreaker σ) : List Op → Codebreaker σ
  | [] => s
  | op :: ops => (s.step env op).run env ops

/-- A concrete instantiation of the external interface, with trivial
(identity) ciphers over a unit cb7 state and the activation-marker
pattern family `0xBEEFC0DE/0xBEEFC0DF`; used to evaluate the state machine
on concrete inputs. -/
def idEnv : Env Unit where
  cb1Encrypt := fun a v => (a, v)
  cb1Decrypt := fun a v => (a, v)
  cb7Encrypt := fun s a v => (s, a, v)
  cb7Decrypt := fun s a v => (s, a, v)
  cb7Beefcode := fun s _ _ => s
  cb7New := ()
  cb7Default := ()
  beefcodep := fun a => a &&& 0xfffffffe == 0xbeefc0de

/-- `num_code_lines` always returns 1 or 2. -/
theorem num_code_lines_one_or_two (addr : Nat) :
    num_code_lines addr = 1 ∨ num_code_lines addr = 2 := by
  simp only [num_code_lines]
  split_ifs <;> omega

/-- `num_code_lines` is at least 1. -/
theorem num_code_lines_pos (addr : Nat) : 1 ≤ num_code_lines addr := by
  rcases num_code_lines_one_or_two addr with h | h <;> omega

/-- `num_code_lines` is at most 2. -/
theorem num_code_lines_le_two (addr : Nat) : num_code_lines addr ≤ 2 := by
  rcases num_code_lines_one_or_two addr with h | h <;> omega

/-- C1: for every 32-bit address, `num_code_lines` returns exactly 1 or 2
and follows the opcode-nibble rule on `cmd = addr >>> 28` (1 line when
`cmd < 3` or `cmd > 6`; for `cmd = 3`, 2 lines exactly when bit
`0x00400000` is set; 2 lines when `cmd` is 4, 5 or 6); and its value
depends on the address only through the top 4 bits plus, when `cmd = 3`,
bit `0x00400000`. -/
theorem num_code_lines_rule (a b : Nat) (_ha : a < 2 ^ 32) (_hb : b < 2 ^ 32) :
    (num_code_lines a = 1 ∨ num_code_lines a = 2) ∧
    (a >>> 28 < 3 ∨ a >>> 28 > 6 → num_code_lines a = 1) ∧
    (a >>> 28 = 3 →
      num_code_lines a = if a &&& 0x00400000 ≠ 0 then 2 else 1) ∧
    (a >>> 28 = 4 ∨ a >>> 28 = 5 ∨ a >>> 28 = 6 → num_code_lines a = 2) ∧
    (a >>> 28 = b >>> 28 →
      (a >>> 28 = 3 → a &&& 0x00400000 = b &&& 0x00400000) →
      num_code_lines a = num_code_lines b) := by
  refine ⟨num_code_lines_one_or_two a, ?_, ?_, ?_, ?_⟩
  · intro h
    simp only [num_code_lines]
    simp only [if_pos h]
  · intro h
    simp only [num_code_lines]
    simp only [h]
    norm_num
  · intro h
    simp only [num_code_lines]
    rcases h with h | h | h <;> simp only [h] <;> norm_num
  · intro hcmd hbit
    simp only [num_code_lines]
    simp only [← hcmd]
    by_cases h1 : a >>> 28 < 3 ∨ a >>> 28 > 6
    · simp only [if_pos h1]
    · simp only [if_neg h1]
      by_cases h2 : a >>> 28 = 3
      · simp only [if_pos h2, hbit h2]
      · simp only [if_neg h2]

/-- Witness for C1 at a concrete pair of addresses with the same top
nibble 3 and the same `0x00400000` bit. -/
theorem num_code_lines_rule_witness :
    (0x30400000 : Nat) < 2 ^ 32 ∧ (0x31400001 : Nat) < 2 ^ 32 ∧
    ((num_code_lines 0x30400000 = 1 ∨ num_code_lines 0x30400000 = 2) ∧
     (0x30400000 >>> 28 < 3 ∨ 0x30400000 >>> 28 > 6 →
       num_code_lines 0x30400000 = 1) ∧
     ((0x30400000 : Nat) >>> 28 = 3 →
       num_code_lines 0x30400000 =
         if (0x30400000 : Nat) &&& 0x00400000 ≠ 0 then 2 else 1) ∧
     ((0x30400000 : Nat) >>> 28 = 4 ∨ (0x30400000 : Nat) >>> 28 = 5 ∨
        (0x30400000 : Nat) >>> 28 = 6 → num_code_lines 0x30400000 = 2) ∧
     ((0x30400000 : Nat) >>> 28 = (0x31400001 : Nat) >>> 28 →
       ((0x30400000 : Nat) >>> 28 = 3 →
         (0x30400000 : Nat) &&& 0x00400000 = (0x31400001 : Nat) &&& 0x00400000) →
       num_code_lines 0x30400000 = num_code_lines 0x31400001)) :=
  ⟨by norm_num, by norm_num,
    num_code_lines_rule 0x30400000 0x31400001 (by norm_num) (by norm_num)⟩

/-- Written from the spec's words (§4.1 encrypt): apply the forward
transform of the currently active scheme — the keyed cipher when the
scheme is `Keyed`, otherwise the simple-scheme cipher (also when the
scheme is `Raw`); then, if the pre-transform address satisfies the
activation-marker predicate, reseed the keyed cipher with the
pre-transform pair and switch the active scheme to `Keyed`; the returned
pair is the ciphertext computed before the switch. -/
def specEncrypt (env : Env σ) (s : Codebreaker σ) (addr val : Nat) :
    Codebreaker σ × Nat × Nat :=
  let transformed : σ × Nat × Nat :=
    match s.scheme with
    | Scheme.V7 => env.cb7Encrypt s.cb7 addr val
    | _ => (s.cb7, env.cb1Encrypt addr val)
  let switched : Codebreaker σ :=
    if env.beefcodep addr then
      ⟨Scheme.V7, env.cb7Beefcode transformed.1 addr val, s.code_lines⟩
    else ⟨s.scheme, transformed.1, s.code_lines⟩
  (switched, transformed.2)

/-- Written from the spec's words (§4.1 decrypt): apply the inverse
transform of the currently active scheme — the keyed cipher when the
scheme is `Keyed`, otherwise the simple-scheme cipher; then check the
activation-marker predicate on the post-transform (decrypted) address and,
when it holds, reseed the keyed cipher with the post-transform pair and
switch the active scheme to `Keyed`. -/
def specDecrypt (env : Env σ) (s : Codebreaker σ) (addr val : Nat) :
    Codebreaker σ × Nat × Nat :=
  let transformed : σ × Nat × Nat :=
    match s.scheme with
    | Scheme.V7 => env.cb7Decrypt s.cb7 addr val
    | _ => (s.cb7, env.cb1Decrypt addr val)
  let switched : Codebreaker σ :=
    if env.beefcodep transformed.2.1 then
      ⟨Scheme.V7, env.cb7Beefcode transformed.1 transformed.2.1 transformed.2.2, s.code_lines⟩
    else ⟨s.scheme, transformed.1, s.code_lines⟩
  (switched, transformed.2)

/-- C2: for every environment, engine state and input pair,
`encrypt_code_mut` coincides with the spec's description of the
dispatcher's encrypt: forward transform of the active scheme first (keyed
cipher when `V7`, else the simple cipher, also for `RAW`), then the
activation check on the pre-transform address with reseed from the
pre-transform pair and a permanent switch to `V7`, returning the
ciphertext computed before the switch. -/
theorem encrypt_code_mut_refines_spec (env : Env σ) (s : Codebreaker σ) (addr val : Nat) :
    s.encrypt_code_mut env addr val = specEncrypt env s addr val := by
  cases hs : s.scheme <;>
    simp [Codebreaker.encrypt_code_mut, specEncrypt, hs] <;> split_ifs <;> rfl

/-- C3: for every environment, engine state and input pair,
`decrypt_code_mut` coincides with the spec's description of the
dispatcher's decrypt: inverse transform of the active scheme, then the
activation check on the post-transform (decrypted) address with reseed
from the post-transform pair and a switch to `V7`. -/
theorem decrypt_code_mut_refines_spec (env : Env σ) (s : Codebreaker σ) (addr val : Nat) :
    s.decrypt_code_mut env addr val = specDecrypt env s addr val := by
  cases hs : s.scheme <;>
    simp [Codebreaker.decrypt_code_mut, specDecrypt, hs] <;> split_ifs <;> rfl

/-- Explicit encrypt never modifies the remaining-lines counter. -/
theorem encrypt_keeps_code_lines (env : Env σ) (s : Codebreaker σ) (a v : Nat) :
    ((s.encrypt_code_mut env a v).1).code_lines = s.code_lines := by
  simp only [Codebreaker.encrypt_code_mut]
  split_ifs <;> rfl

/-- Explicit decrypt never modifies the remaining-lines counter. -/
theorem decrypt_keeps_code_lines (env : Env σ) (s : Codebreaker σ) (a v : Nat) :
    ((s.decrypt_code_mut env a v).1).code_lines = s.code_lines := by
  simp only [Codebreaker.decrypt_code_mut]
  split_ifs <;> rfl

/-- The body of auto-decrypt leaves at most one remaining line whenever at
most one was remaining before the call. -/
theorem auto_decrypt_body_code_lines_le_one (env : Env σ) (s : Codebreaker σ)
    (a v : Nat) (h : s.code_lines ≤ 1) :
    ((s.auto_decrypt_body env a v).1).code_lines ≤ 1 := by
  have h1 := num_code_lines_le_two a
  have h2 := num_code_lines_le_two (env.cb7Decrypt s.cb7 a v).2.1
  simp only [Codebreaker.auto_decrypt_body]
  split_ifs <;> simp <;> omega

/-- Auto-decrypt leaves at most one remaining line whenever at most one
was remaining before the call. -/
theorem auto_decrypt_code_lines_le_one (env : Env σ) (s : Codebreaker σ)
    (a v : Nat) (h : s.code_lines ≤ 1) :
    ((s.auto_decrypt_code_mut env a v).1).code_lines ≤ 1 := by
  have hb := auto_decrypt_body_code_lines_le_one env s a v h
  rcases hr : s.auto_decrypt_body env a v with ⟨s₁, a₁, v₁, e⟩
  rw [hr] at hb
  simp only [Codebreaker.auto_decrypt_code_mut, hr, Codebreaker.beefcodeTail]
  cases e <;> split_ifs <;> simp_all

/-- One public operation keeps the remaining-lines counter at most 1. -/
theorem step_code_lines_le_one (env : Env σ) (s : Codebreaker σ) (op : Op)
    (h : s.code_lines ≤ 1) : (s.step env op).code_lines ≤ 1 := by
  cases op with
  | enc a v =>
    simp only [Codebreaker.step, encrypt_keeps_code_lines]; exact h
  | dec a v =>
    simp only [Codebreaker.step, decrypt_keeps_code_lines]; exact h
  | auto a v =>
    exact auto_decrypt_code_lines_le_one env s a v h

/-- A whole session keeps the remaining-lines counter at most 1. -/
theorem run_code_lines_le_one (env : Env σ) (s : Codebreaker σ) (ops : List Op)
    (h : s.code_lines ≤ 1) : (s.run env ops).code_lines ≤ 1 := by
  induction ops generalizing s with
  | nil => exact h
  | cons op ops ih =>
    exact ih _ (step_code_lines_le_one env s op h)

/-- One public operation keeps the scheme at `V7` once it is `V7`. -/
theorem step_keeps_scheme_v7 (env : Env σ) (s : Codebreaker σ) (op : Op)
    (h : s.scheme = Scheme.V7) : (s.step env op).scheme = Scheme.V7 := by
  cases op with
  | enc a v =>
    simp only [Codebreaker.step, Codebreaker.encrypt_code_mut]
    split_ifs <;> simp [h]
  | dec a v =>
    simp only [Codebreaker.step, Codebreaker.decrypt_code_mut]
    split_ifs <;> simp [h]
  | auto a v =>
    simp only [Codebreaker.step, Codebreaker.auto_decrypt_code_mut,
      Codebreaker.auto_decrypt_body, Codebreaker.beefcodeTail, h]
    split_ifs <;> simp_all

/-- C5: once the active scheme is `V7` (Keyed), it stays `V7` for every
subsequent sequence of public operations (explicit encrypt, explicit
decrypt, auto-decrypt); no input ever reverts the scheme to `RAW` or
`V1`. -/
theorem scheme_v7_permanent (env : Env σ) (s : Codebreaker σ) (ops : List Op)
    (h : s.scheme = Scheme.V7) : (s.run env ops).scheme = Scheme.V7 := by
  induction ops generalizing s with
  | nil => exact h
  | cons op ops ih =>
    exact ih _ (step_keeps_scheme_v7 env s op h)

/-- Witness for C5: a warm-start engine keeps scheme `V7` over a concrete
session mixing the three operations. -/
theorem scheme_v7_permanent_witness :
    (Codebreaker.new_v7 idEnv).scheme = Scheme.V7 ∧
    ((Codebreaker.new_v7 idEnv).run idEnv
      [Op.auto 0x2043AFCC 0x2411FFFF, Op.enc 0x103E0B2A 7,
        Op.dec 0x2096F5B8 0xBE]).scheme = Scheme.V7 :=
  ⟨rfl, scheme_v7_permanent idEnv (Codebreaker.new_v7 idEnv) _ rfl⟩

/-- C10: from either constructor, after every sequence of public
operations the remaining-lines counter is 0 or 1 (it never reaches 2 even
though `num_code_lines` can return 2), and the explicit encrypt and
decrypt operations never modify the counter at all. -/
theorem code_lines_zero_or_one (env : Env σ) (ops : List Op) :
    (((Codebreaker.new env).run env ops).code_lines = 0 ∨
      ((Codebreaker.new env).run env ops).code_lines = 1) ∧
    (((Codebreaker.new_v7 env).run env ops).code_lines = 0 ∨
      ((Codebreaker.new_v7 env).run env ops).code_lines = 1) ∧
    (∀ (s : Codebreaker σ) (a v : Nat),
      ((s.encrypt_code_mut env a v).1).code_lines = s.code_lines ∧
      ((s.decrypt_code_mut env a v).1).code_lines = s.code_lines) := by
  refine ⟨?_, ?_, ?_⟩
  · have := run_code_lines_le_one env (Codebreaker.new env) ops (by simp [Codebreaker.new])
    omega
  · have := run_code_lines_le_one env (Codebreaker.new_v7 env) ops (by simp [Codebreaker.new_v7])
    omega
  · intro s a v
    exact ⟨encrypt_keeps_code_lines env s a v, decrypt_keeps_code_lines env s a v⟩

/-- C7: an auto-decrypt call in a non-`V7` scheme at a group boundary
(`code_lines = 0`), whose raw address has a nonzero `(addr >>> 24) &&& 0x0e`
field and satisfies the activation-marker predicate, returns the input
pair unchanged, sets the counter to `num_code_lines addr - 1`, and leaves
both the active scheme and the cb7 cipher state untouched: no scheme
switch and no reseed happen on this call. -/
theorem auto_decrypt_raw_beefcode_ignored (env : Env σ) (s : Codebreaker σ)
    (a v : Nat) (hsch : s.scheme ≠ Scheme.V7) (hcl : s.code_lines = 0)
    (hmask : (a >>> 24) &&& 0x0e ≠ 0) (hbeef : env.beefcodep a = true) :
    s.auto_decrypt_code_mut env a v =
      (⟨s.scheme, s.cb7, num_code_lines a - 1⟩, a, v) := by
  simp [Codebreaker.auto_decrypt_code_mut, Codebreaker.auto_decrypt_body,
    hsch, hcl, hmask, hbeef]

/-- Witness for C7: a cold-start engine fed the raw beefcode address
`0xBEEFC0DE` consumes it unchanged without switching scheme. -/
theorem auto_decrypt_raw_beefcode_ignored_witness :
    (Codebreaker.new idEnv).scheme ≠ Scheme.V7 ∧
    (Codebreaker.new idEnv).code_lines = 0 ∧
    ((0xbeefc0de : Nat) >>> 24) &&& 0x0e ≠ 0 ∧
    idEnv.beefcodep 0xbeefc0de = true ∧
    (Codebreaker.new idEnv).auto_decrypt_code_mut idEnv 0xbeefc0de 0 =
      (⟨(Codebreaker.new idEnv).scheme, (Codebreaker.new idEnv).cb7,
          num_code_lines 0xbeefc0de - 1⟩, 0xbeefc0de, 0) :=
  ⟨by decide, rfl, by decide, by decide,
    auto_decrypt_raw_beefcode_ignored idEnv (Codebreaker.new idEnv) 0xbeefc0de 0
      (by decide) rfl (by decide) (by decide)⟩

/-- C8: an auto-decrypt call in the `V7` scheme at a group boundary whose
cb7-decrypted address is the all-ones sentinel `0xFFFFFFFF` (whose line
count is 1) returns the decrypted pair, leaves the counter at 0, keeps the
scheme `V7`, and applies no reseed beyond the cb7 decryption itself; no
error is signaled. -/
theorem auto_decrypt_v7_rekey_skipped (env : Env σ) (s : Codebreaker σ)
    (a v : Nat) (hsch : s.scheme = Scheme.V7) (hcl : s.code_lines = 0)
    (haddr : (env.cb7Decrypt s.cb7 a v).2.1 = 0xffffffff) :
    num_code_lines (env.cb7Decrypt s.cb7 a v).2.1 = 1 ∧
    s.auto_decrypt_code_mut env a v =
      (⟨Scheme.V7, (env.cb7Decrypt s.cb7 a v).1, 0⟩, 0xffffffff,
        (env.cb7Decrypt s.cb7 a v).2.2) := by
  have hn : num_code_lines 0xffffffff = 1 := by decide
  constructor
  · rw [haddr]; exact hn
  · simp [Codebreaker.auto_decrypt_code_mut, Codebreaker.auto_decrypt_body,
      hsch, hcl, haddr, hn]

/-- Witness for C8: a warm-start engine over the trivial cipher fed the
line `(0xFFFFFFFF, 5)` skips it as an unsupported rekey request. -/
theorem auto_decrypt_v7_rekey_skipped_witness :
    (Codebreaker.new_v7 idEnv).scheme = Scheme.V7 ∧
    (Codebreaker.new_v7 idEnv).code_lines = 0 ∧
    (idEnv.cb7Decrypt (Codebreaker.new_v7 idEnv).cb7 0xffffffff 5).2.1 = 0xffffffff ∧
    (num_code_lines (idEnv.cb7Decrypt (Codebreaker.new_v7 idEnv).cb7 0xffffffff 5).2.1 = 1 ∧
      (Codebreaker.new_v7 idEnv).auto_decrypt_code_mut idEnv 0xffffffff 5 =
        (⟨Scheme.V7, (idEnv.cb7Decrypt (Codebreaker.new_v7 idEnv).cb7 0xffffffff 5).1, 0⟩,
          0xffffffff, (idEnv.cb7Decrypt (Codebreaker.new_v7 idEnv).cb7 0xffffffff 5).2.2)) :=
  ⟨rfl, rfl, rfl,
    auto_decrypt_v7_rekey_skipped idEnv (Codebreaker.new_v7 idEnv) 0xffffffff 5
      rfl rfl rfl⟩

/-- C9: whenever the body of auto-decrypt does not return early and its
produced (decrypted) address satisfies the activation-marker predicate,
the call ends with the cb7 cipher reseeded from the produced pair, the
active scheme set to `V7`, and exactly one remaining line. -/
theorem auto_decrypt_common_tail (env : Env σ) (s s₁ : Codebreaker σ)
    (a v a₁ v₁ : Nat)
    (hbody : s.auto_decrypt_body env a v = (s₁, a₁, v₁, false))
    (hbeef : env.beefcodep a₁ = true) :
    s.auto_decrypt_code_mut env a v =
      (⟨Scheme.V7, env.cb7Beefcode s₁.cb7 a₁ v₁, 1⟩, a₁, v₁) := by
  simp [Codebreaker.auto_decrypt_code_mut, hbody, Codebreaker.beefcodeTail, hbeef]

/-- Witness for C9: a warm-start engine over the trivial cipher decrypts
`(0xBEEFC0DE, 0)` to itself, hits the common tail, and ends reseeded in
scheme `V7` with one remaining line. -/
theorem auto_decrypt_common_tail_witness :
    (Codebreaker.new_v7 idEnv).auto_decrypt_body idEnv 0xbeefc0de 0 =
      (⟨Scheme.V7, (), 0⟩, 0xbeefc0de, 0, false) ∧
    idEnv.beefcodep 0xbeefc0de = true ∧
    (Codebreaker.new_v7 idEnv).auto_decrypt_code_mut idEnv 0xbeefc0de 0 =
      (⟨Scheme.V7, idEnv.cb7Beefcode (Codebreaker.mk Scheme.V7 () 0).cb7 0xbeefc0de 0, 1⟩,
        0xbeefc0de, 0) :=
  ⟨rfl, by decide,
    auto_decrypt_common_tail idEnv (Codebreaker.new_v7 idEnv) ⟨Scheme.V7, (), 0⟩
      0xbeefc0de 0 0xbeefc0de 0 rfl (by decide)⟩

/-- Counterexample to C6 as stated: on the trivial-cipher environment, a
cold-start session whose first auto-decrypted header is `0x2A000000`
switches the scheme to `V1` (Simple), yet the very next auto-decrypt call,
with header `0x00000000`, puts the scheme back to `RAW` — so the
`Raw → Simple` transition is not one-directional within a session. -/
theorem v1_scheme_reverts_to_raw :
    ((Codebreaker.new idEnv).step idEnv (Op.auto 0x2A000000 0)).scheme = Scheme.V1 ∧
    (((Codebreaker.new idEnv).step idEnv (Op.auto 0x2A000000 0)).step idEnv
        (Op.auto 0 0)).scheme = Scheme.RAW := by
  exact ⟨rfl, rfl⟩

/-- C6 amended: the `Simple → Raw` reversion exists but is confined to one
situation.  If the scheme is `V1` and one public operation leaves it
`RAW`, that operation was an auto-decrypt at a group boundary
(`code_lines = 0`) whose raw header address has
`(addr >>> 24) &&& 0x0e = 0`; explicit encrypt, explicit decrypt, and
every other auto-decrypt path keep the scheme `V1` or move it to `V7`. -/
theorem v1_to_raw_only_at_group_boundary (env : Env σ) (s : Codebreaker σ)
    (op : Op) (h1 : s.scheme = Scheme.V1)
    (h2 : (s.step env op).scheme = Scheme.RAW) :
    ∃ a v, op = Op.auto a v ∧ s.code_lines = 0 ∧ (a >>> 24) &&& 0x0e = 0 := by
  cases op with
  | enc a v =>
    exfalso
    simp only [Codebreaker.step, Codebreaker.encrypt_code_mut] at h2
    split_ifs at h2 <;> simp_all
  | dec a v =>
    exfalso
    simp only [Codebreaker.step, Codebreaker.decrypt_code_mut] at h2
    split_ifs at h2 <;> simp_all
  | auto a v =>
    refine ⟨a, v, rfl, ?_⟩
    simp only [Codebreaker.step, Codebreaker.auto_decrypt_code_mut,
      Codebreaker.auto_decrypt_body, Codebreaker.beefcodeTail, h1] at h2
    split_ifs at h2 <;> simp_all

/-- Witness for the amended C6 at the concrete reverting call: the engine
`⟨V1, (), 0⟩` stepped with `auto 0 0` lands in `RAW`, and the amended
theorem locates the boundary conditions there. -/
theorem v1_to_raw_only_at_group_boundary_witness :
    (Codebreaker.mk Scheme.V1 () 0).scheme = Scheme.V1 ∧
    ((Codebreaker.mk Scheme.V1 () 0).step idEnv (Op.auto 0 0)).scheme = Scheme.RAW ∧
    ∃ a v, Op.auto 0 0 = Op.auto a v ∧
      (Codebreaker.mk Scheme.V1 () 0).code_lines = 0 ∧ (a >>> 24) &&& 0x0e = 0 :=
  ⟨rfl, rfl,
    v1_to_raw_only_at_group_boundary idEnv (Codebreaker.mk Scheme.V1 () 0)
      (Op.auto 0 0) rfl rfl⟩

/-- C4: on fresh engines of the same start mode, decrypt inverts encrypt,
assuming the cb1 and cb7 transforms are exact inverses (spec §6): for the
cold start the cb1 round-trip, for the warm start the cb7 round-trip from
an identical initial cipher state. -/
theorem fresh_roundtrip (env : Env σ)
    (hcb1 : ∀ a v : Nat,
      env.cb1Decrypt (env.cb1Encrypt a v).1 (env.cb1Encrypt a v).2 = (a, v))
    (hcb7 : ∀ (st : σ) (a v : Nat),
      (env.cb7Decrypt st (env.cb7Encrypt st a v).2.1 (env.cb7Encrypt st a v).2.2).2 = (a, v))
    (a v : Nat) :
    ((Codebreaker.new env).decrypt_code env
        ((Codebreaker.new env).encrypt_code env a v).2.1
        ((Codebreaker.new env).encrypt_code env a v).2.2).2 = (a, v) ∧
    ((Codebreaker.new_v7 env).decrypt_code env
        ((Codebreaker.new_v7 env).encrypt_code env a v).2.1
        ((Codebreaker.new_v7 env).encrypt_code env a v).2.2).2 = (a, v) := by
  constructor
  · simp only [Codebreaker.decrypt_code, Codebreaker.encrypt_code,
      Codebreaker.decrypt_code_mut, Codebreaker.encrypt_code_mut, Codebreaker.new]
    split_ifs <;> simp_all [hcb1 a v]
  · simp only [Codebreaker.decrypt_code, Codebreaker.encrypt_code,
      Codebreaker.decrypt_code_mut, Codebreaker.encrypt_code_mut, Codebreaker.new_v7]
    split_ifs <;> simp_all [hcb7 env.cb7Default a v]

/-- Witness for C4: the trivial-cipher environment satisfies both inverse
contracts, and the round-trip holds at the concrete pair
`(0x2043AFCC, 0x2411FFFF)`. -/
theorem fresh_roundtrip_witness :
    (∀ a v : Nat,
      idEnv.cb1Decrypt (idEnv.cb1Encrypt a v).1 (idEnv.cb1Encrypt a v).2 = (a, v)) ∧
    (∀ (st : Unit) (a v : Nat),
      (idEnv.cb7Decrypt st (idEnv.cb7Encrypt st a v).2.1 (idEnv.cb7Encrypt st a v).2.2).2
        = (a, v)) ∧
    (((Codebreaker.new idEnv).decrypt_code idEnv
        ((Codebreaker.new idEnv).encrypt_code idEnv 0x2043AFCC 0x2411FFFF).2.1
        ((Codebreaker.new idEnv).encrypt_code idEnv 0x2043AFCC 0x2411FFFF).2.2).2
          = (0x2043AFCC, 0x2411FFFF) ∧
      ((Codebreaker.new_v7 idEnv).decrypt_code idEnv
        ((Codebreaker.new_v7 idEnv).encrypt_code idEnv 0x2043AFCC 0x2411FFFF).2.1
        ((Codebreaker.new_v7 idEnv).encrypt_code idEnv 0x2043AFCC 0x2411FFFF).2.2).2
          = (0x2043AFCC, 0x2411FFFF)) :=
  ⟨fun _ _ => rfl, fun _ _ _ => rfl,
    fresh_roundtrip idEnv (fun _ _ => rfl) (fun _ _ _ => rfl) 0x2043AFCC 0x2411FFFF⟩
